import Mathlib

/-!
Shallow embedding of `src/scripts/compliance_batch_runner.py` (the compliance
rule batch runner): the position store, the twelve generated rule evaluators,
the rule registry, and the `run_rules` batch orchestrator, together with
theorems settling the specification claims.

Modelling conventions:
* Python floats (portfolio weights, thresholds) are modelled as `Rat`.
* The sqlite data store is a `Store`: the rows of the `positions` table plus
  an optional pending failure.  When `dbError` is `some e`, every
  `execute_sql` call raises (returns `Except.error e`), mirroring a
  data-access failure whose text is `e`; when it is `none`, every query
  succeeds and is computed from `positions`.
* Each SQL text of the source is embedded as the pure function of the
  positions table it denotes (filter / sum / count / group-by / order-by /
  limit), evaluated through `execSql`.
* Python exceptions are values of `Except String`; the `try/except` around
  each evaluator body is the surrounding `match`.  Lean functions are total,
  so "the evaluator never propagates an exception" is inherent to the model
  and the interesting content is the shape of the `_error` result.
* Python string methods `.strip()`/`.upper()` are embedded character-wise
  (`trimStr`, `upperStr`) so that they evaluate inside the kernel.
-/

/-- One row of the `positions` table of portfolio.db. -/
structure Position where
  isin : String
  security_name : String
  fund_id : String
  asset_class : String
  country : String
  sector : String
  weight_pct : Rat
  compliance_status : String
deriving DecidableEq, Repr

/-- One breach record of an evaluator result (identifier, description, value). -/
structure Breach where
  identifier : String
  description : String
  value : Rat
deriving DecidableEq, Repr

/-- The dictionary every evaluator returns.  `metric_value` and `threshold`
are `Option` because the error dictionaries built in `run_rules` set them to
Python `None`; `error` models the presence of the `"error": True` key
(absent, hence falsy, on ordinary results). -/
structure RuleResult where
  rule : String
  rule_type : String
  fund_id : String
  as_of_date : String
  passed : Bool
  metric_value : Option Rat
  threshold : Option Rat
  unit : String
  breaches : List Breach
  message : String
  error : Bool
deriving DecidableEq, Repr

/-- The data store seen by `execute_sql`: the `positions` table, plus an
optional pending data-access failure (its exception text). -/
structure Store where
  positions : List Position
  dbError : Option String
deriving DecidableEq, Repr

/-- `execute_sql`: runs the denotation `q` of a SQL text against the store;
raises (returns `Except.error`) when the store has a pending failure. -/
def execSql (s : Store) (q : List Position → α) : Except String α :=
  match s.dbError with
  | some e => Except.error e
  | none => Except.ok (q s.positions)

/-- Python `str.upper`, character-wise. -/
def upperStr (s : String) : String := String.mk (s.data.map Char.toUpper)

/-- Python `str.strip`: drop whitespace from both ends. -/
def trimStr (s : String) : String :=
  String.mk (((s.data.dropWhile Char.isWhitespace).reverse.dropWhile
    Char.isWhitespace).reverse)

/-- Whether `pat` occurs as a contiguous sublist of a character list. -/
def subOccurs (pat : List Char) : List Char → Bool
  | [] => pat.isEmpty
  | c :: cs => pat.isPrefixOf (c :: cs) || subOccurs pat cs

/-- Whether `pat` occurs as a substring of `s`. -/
def strContainsSub (s pat : String) : Bool := subOccurs pat.data s.data

/-- A single apostrophe (U+0027), used in report messages. -/
def apos : String := String.singleton (Char.ofNat 39)

/-- Round a rational to the nearest integer, ties to even (the rounding of
Python `round`). -/
def roundHalfEven (x : Rat) : Int :=
  let f : Int := x.floor
  let frac : Rat := x - (f : Rat)
  if frac < 1/2 then f
  else if 1/2 < frac then f + 1
  else if f % 2 = 0 then f else f + 1

/-- Python `round(x, 4)`. -/
def round4 (x : Rat) : Rat := ((roundHalfEven (x * 10000) : Int) : Rat) / 10000

/-- Python format `f"{x:.2f}"` on the idealised (rational) value. -/
def fmtFixed2 (x : Rat) : String :=
  let c : Int := roundHalfEven (x * 100)
  let sign : String := if c < 0 then "-" else ""
  let a : Nat := c.natAbs
  sign ++ toString (a / 100) ++ "." ++ (if a % 100 < 10 then "0" else "") ++
    toString (a % 100)

/-- Python `str` on a float that holds a whole or simple decimal number,
idealised on `Rat`: used only inside report message text. -/
def pyNumStr (x : Rat) : String :=
  if x.den = 1 then toString x.num ++ ".0"
  else toString x.num ++ "/" ++ toString x.den

/-- Sum of `weight_pct` over a list of rows (`SUM(weight_pct)`). -/
def sumWeights (ps : List Position) : Rat := (ps.map (fun p => p.weight_pct)).sum

/-- `WHERE fund_id = {fund_id}`. -/
def positionsOf (fund_id : String) (ps : List Position) : List Position :=
  ps.filter (fun p => p.fund_id == fund_id)

/-- `SELECT SUM(weight_pct) FROM positions WHERE fund_id = … AND pred`:
SQL `SUM` over no rows is NULL, hence `none`. -/
def sqlSumWeight (fund_id : String) (pred : Position → Bool)
    (ps : List Position) : Option Rat :=
  let rows := (positionsOf fund_id ps).filter pred
  if rows.isEmpty then none else some (sumWeights rows)

/-- `SELECT COUNT(*) FROM positions WHERE fund_id = … AND pred`. -/
def sqlCount (fund_id : String) (pred : Position → Bool)
    (ps : List Position) : Nat :=
  ((positionsOf fund_id ps).filter pred).length

/-- Descending order on a rational key (`ORDER BY … DESC`). -/
def byKeyDesc (key : α → Rat) (a b : α) : Prop := key b ≤ key a

instance (key : α → Rat) : DecidableRel (byKeyDesc key) :=
  fun a b => inferInstanceAs (Decidable (key b ≤ key a))

instance (key : α → Rat) : IsTotal α (byKeyDesc key) :=
  ⟨fun a b => (le_total (key b) (key a)).imp id id⟩

instance (key : α → Rat) : IsTrans α (byKeyDesc key) :=
  ⟨fun _ _ _ h h2 => le_trans h2 h⟩

/-- Stable sort, largest key first. -/
def sortDesc (key : α → Rat) (l : List α) : List α :=
  List.insertionSort (byKeyDesc key) l

/-- `SELECT isin, security_name, weight_pct FROM positions WHERE … ORDER BY
weight_pct DESC`. -/
def sqlPositionsByWeightDesc (fund_id : String) (pred : Position → Bool)
    (ps : List Position) : List Position :=
  sortDesc (fun p => p.weight_pct) ((positionsOf fund_id ps).filter pred)

/-- The distinct values of `key` over `ps`, first occurrence first. -/
def keysInOrder (key : Position → String) (ps : List Position) : List String :=
  ps.foldl (fun acc p => if acc.contains (key p) then acc else acc ++ [key p]) []

/-- `GROUP BY key` with `SUM(weight_pct)` per group. -/
def groupSums (key : Position → String) (ps : List Position) :
    List (String × Rat) :=
  (keysInOrder key ps).map (fun k => (k, sumWeights (ps.filter (fun p => key p == k))))

/-- `SELECT key, SUM(weight_pct) FROM positions WHERE fund_id = … GROUP BY key
ORDER BY SUM(weight_pct) DESC`. -/
def sqlGroupSumDesc (fund_id : String) (key : Position → String)
    (ps : List Position) : List (String × Rat) :=
  sortDesc (fun g => g.2) (groupSums key (positionsOf fund_id ps))

/-- A breach record from a position row, as every evaluator builds it. -/
def breachOfRow (p : Position) : Breach :=
  { identifier := p.isin, description := p.security_name, value := p.weight_pct }

/-- Python helper `_error`: the uniform ERROR-shaped result every evaluator
returns when the data accessor raises (`exc` is the exception text). -/
def _error (rule_text rule_type fund_id as_of_date : String) (threshold : Rat)
    (unit : String) (exc : String) : RuleResult :=
  { rule := rule_text, rule_type := rule_type, fund_id := fund_id,
    as_of_date := as_of_date, passed := false, metric_value := none,
    threshold := some threshold, unit := unit, breaches := [],
    message := "Error during rule check: " ++ exc, error := true }

/-- Python helper `_pass`: a PASS result with no breaches. -/
def _pass (rule_text rule_type fund_id as_of_date : String)
    (metric_value threshold : Rat) (unit message : String) : RuleResult :=
  { rule := rule_text, rule_type := rule_type, fund_id := fund_id,
    as_of_date := as_of_date, passed := true,
    metric_value := some metric_value, threshold := some threshold,
    unit := unit, breaches := [], message := message, error := false }

/-- R001 `check_max_equity_exposure`: max 60% of portfolio in Equity
(Python default threshold 60.0, applied by the registry wrapper). -/
def check_max_equity_exposure (s : Store) (fund_id as_of_date : String)
    (threshold : Rat) : RuleResult :=
  let rule_text := "max 60% of portfolio in Equity"
  let rule_type := "MAX_PCT_NAV"
  match execSql s (sqlSumWeight fund_id (fun p => p.asset_class == "Equity")) with
  | Except.error e =>
      _error rule_text rule_type fund_id as_of_date threshold "% of NAV" e
  | Except.ok w? =>
    let equity_weight := w?.getD 0
    let passed := decide (equity_weight ≤ threshold)
    let mk : List Breach → RuleResult := fun breaches =>
      { rule := rule_text, rule_type := rule_type, fund_id := fund_id,
        as_of_date := as_of_date, passed := passed,
        metric_value := some (round4 equity_weight), threshold := some threshold,
        unit := "% of NAV", breaches := breaches,
        message := "Equity exposure is " ++ fmtFixed2 equity_weight ++
          "% of portfolio, " ++ (if passed then "within" else "exceeds") ++
          " max " ++ pyNumStr threshold ++ "%.",
        error := false }
    if passed then mk []
    else
      match execSql s
          (sqlPositionsByWeightDesc fund_id (fun p => p.asset_class == "Equity")) with
      | Except.error e =>
          _error rule_text rule_type fund_id as_of_date threshold "% of NAV" e
      | Except.ok rows => mk (rows.map breachOfRow)

/-- R002 `check_no_restricted_positions`: no positions with Restricted
compliance status (Python default threshold 0). -/
def check_no_restricted_positions (s : Store) (fund_id as_of_date : String)
    (threshold : Rat) : RuleResult :=
  let rule_text := "no positions with Restricted compliance status"
  let rule_type := "PROHIBITED"
  match execSql s
      (sqlCount fund_id (fun p => p.compliance_status == "Restricted")) with
  | Except.error e =>
      _error rule_text rule_type fund_id as_of_date threshold "count" e
  | Except.ok count =>
    let passed := decide (count = 0)
    let mk : List Breach → RuleResult := fun breaches =>
      { rule := rule_text, rule_type := rule_type, fund_id := fund_id,
        as_of_date := as_of_date, passed := passed,
        metric_value := some (count : Rat), threshold := some threshold,
        unit := "count", breaches := breaches,
        message :=
          if passed then "No Restricted positions found."
          else toString count ++ " Restricted position(s) found — rule breached.",
        error := false }
    if passed then mk []
    else
      match execSql s
          (sqlPositionsByWeightDesc fund_id
            (fun p => p.compliance_status == "Restricted")) with
      | Except.error e =>
          _error rule_text rule_type fund_id as_of_date threshold "count" e
      | Except.ok rows => mk (rows.map breachOfRow)

/-- R003 `check_max_single_country_concentration`: max 30% of portfolio in
any single country (Python default threshold 30.0). -/
def check_max_single_country_concentration (s : Store)
    (fund_id as_of_date : String) (threshold : Rat) : RuleResult :=
  let rule_text := "max 30% of portfolio in any single country"
  let rule_type := "CONCENTRATION"
  match execSql s (sqlGroupSumDesc fund_id (fun p => p.country)) with
  | Except.error e =>
      _error rule_text rule_type fund_id as_of_date threshold "% of NAV" e
  | Except.ok df =>
    match df with
    | [] =>
        _pass rule_text rule_type fund_id as_of_date 0 threshold "% of NAV"
          "No positions found."
    | g0 :: _ =>
      let max_weight := g0.2
      let passed := decide (max_weight ≤ threshold)
      let breaches :=
        if passed then []
        else (df.filter (fun g => decide (threshold < g.2))).map
          (fun g =>
            { identifier := g.1, description := "Country: " ++ g.1, value := g.2 })
      { rule := rule_text, rule_type := rule_type, fund_id := fund_id,
        as_of_date := as_of_date, passed := passed,
        metric_value := some (round4 max_weight), threshold := some threshold,
        unit := "% of NAV", breaches := breaches,
        message := "Max country concentration is " ++ fmtFixed2 max_weight ++
          "% (" ++ g0.1 ++ "), " ++ (if passed then "within" else "exceeds") ++
          " max " ++ pyNumStr threshold ++ "%.",
        error := false }

/-- R004 `check_max_single_sector_concentration`: max 30% of portfolio in
any single sector (Python default threshold 30.0). -/
def check_max_single_sector_concentration (s : Store)
    (fund_id as_of_date : String) (threshold : Rat) : RuleResult :=
  let rule_text := "max 30% of portfolio in any single sector"
  let rule_type := "CONCENTRATION"
  match execSql s (sqlGroupSumDesc fund_id (fun p => p.sector)) with
  | Except.error e =>
      _error rule_text rule_type fund_id as_of_date threshold "% of NAV" e
  | Except.ok df =>
    match df with
    | [] =>
        _pass rule_text rule_type fund_id as_of_date 0 threshold "% of NAV"
          "No positions found."
    | g0 :: _ =>
      let max_weight := g0.2
      let passed := decide (max_weight ≤ threshold)
      let breaches :=
        if passed then []
        else (df.filter (fun g => decide (threshold < g.2))).map
          (fun g =>
            { identifier := g.1, description := "Sector: " ++ g.1, value := g.2 })
      { rule := rule_text, rule_type := rule_type, fund_id := fund_id,
        as_of_date := as_of_date, passed := passed,
        metric_value := some (round4 max_weight), threshold := some threshold,
        unit := "% of NAV", breaches := breaches,
        message := "Max sector concentration is " ++ fmtFixed2 max_weight ++
          "% (" ++ g0.1 ++ "), " ++ (if passed then "within" else "exceeds") ++
          " max " ++ pyNumStr threshold ++ "%.",
        error := false }

/-- R005 `check_max_bond_exposure`: max 40% of portfolio in Bonds
(Python default threshold 40.0). -/
def check_max_bond_exposure (s : Store) (fund_id as_of_date : String)
    (threshold : Rat) : RuleResult :=
  let rule_text := "max 40% of portfolio in Bonds"
  let rule_type := "MAX_PCT_NAV"
  match execSql s (sqlSumWeight fund_id (fun p => p.asset_class == "Bond")) with
  | Except.error e =>
      _error rule_text rule_type fund_id as_of_date threshold "% of NAV" e
  | Except.ok w? =>
    let bond_weight := w?.getD 0
    let passed := decide (bond_weight ≤ threshold)
    let mk : List Breach → RuleResult := fun breaches =>
      { rule := rule_text, rule_type := rule_type, fund_id := fund_id,
        as_of_date := as_of_date, passed := passed,
        metric_value := some (round4 bond_weight), threshold := some threshold,
        unit := "% of NAV", breaches := breaches,
        message := "Bond exposure is " ++ fmtFixed2 bond_weight ++
          "% of portfolio, " ++ (if passed then "within" else "exceeds") ++
          " max " ++ pyNumStr threshold ++ "%.",
        error := false }
    if passed then mk []
    else
      match execSql s
          (sqlPositionsByWeightDesc fund_id (fun p => p.asset_class == "Bond")) with
      | Except.error e =>
          _error rule_text rule_type fund_id as_of_date threshold "% of NAV" e
      | Except.ok rows => mk (rows.map breachOfRow)

/-- R006 `check_min_cash_exposure`: min 2% of portfolio in Cash
(Python default threshold 2.0).  No breach enumeration. -/
def check_min_cash_exposure (s : Store) (fund_id as_of_date : String)
    (threshold : Rat) : RuleResult :=
  let rule_text := "min 2% of portfolio in Cash"
  let rule_type := "MIN_PCT_NAV"
  match execSql s (sqlSumWeight fund_id (fun p => p.asset_class == "Cash")) with
  | Except.error e =>
      _error rule_text rule_type fund_id as_of_date threshold "% of NAV" e
  | Except.ok w? =>
    let cash_weight := w?.getD 0
    let passed := decide (cash_weight ≥ threshold)
    { rule := rule_text, rule_type := rule_type, fund_id := fund_id,
      as_of_date := as_of_date, passed := passed,
      metric_value := some (round4 cash_weight), threshold := some threshold,
      unit := "% of NAV", breaches := [],
      message := "Cash is " ++ fmtFixed2 cash_weight ++ "% of portfolio, " ++
        (if passed then "meets" else "below") ++ " minimum " ++
        pyNumStr threshold ++ "%.",
      error := false }

/-- R007 `check_max_single_position_weight`: no single position to exceed
15% of NAV (Python default threshold 15.0). -/
def check_max_single_position_weight (s : Store) (fund_id as_of_date : String)
    (threshold : Rat) : RuleResult :=
  let rule_text := "no single position to exceed 15% of NAV"
  let rule_type := "CONCENTRATION"
  match execSql s (sqlPositionsByWeightDesc fund_id (fun _ => true)) with
  | Except.error e =>
      _error rule_text rule_type fund_id as_of_date threshold "% of NAV" e
  | Except.ok df =>
    match df with
    | [] =>
        _pass rule_text rule_type fund_id as_of_date 0 threshold "% of NAV"
          "No positions found."
    | p0 :: _ =>
      let max_weight := p0.weight_pct
      let passed := decide (max_weight ≤ threshold)
      let breaches :=
        if passed then []
        else (df.filter (fun p => decide (threshold < p.weight_pct))).map breachOfRow
      { rule := rule_text, rule_type := rule_type, fund_id := fund_id,
        as_of_date := as_of_date, passed := passed,
        metric_value := some (round4 max_weight), threshold := some threshold,
        unit := "% of NAV", breaches := breaches,
        message := "Largest position is " ++ fmtFixed2 max_weight ++ "% (" ++
          p0.security_name ++ "), " ++ (if passed then "within" else "exceeds") ++
          " max " ++ pyNumStr threshold ++ "%.",
        error := false }

/-- R008 `check_max_review_status_exposure`: max 20% of portfolio in Review
status positions (Python default threshold 20.0). -/
def check_max_review_status_exposure (s : Store) (fund_id as_of_date : String)
    (threshold : Rat) : RuleResult :=
  let rule_text := "max 20% of portfolio in Review status positions"
  let rule_type := "MAX_PCT_NAV"
  match execSql s
      (sqlSumWeight fund_id (fun p => p.compliance_status == "Review")) with
  | Except.error e =>
      _error rule_text rule_type fund_id as_of_date threshold "% of NAV" e
  | Except.ok w? =>
    let review_weight := w?.getD 0
    let passed := decide (review_weight ≤ threshold)
    let mk : List Breach → RuleResult := fun breaches =>
      { rule := rule_text, rule_type := rule_type, fund_id := fund_id,
        as_of_date := as_of_date, passed := passed,
        metric_value := some (round4 review_weight), threshold := some threshold,
        unit := "% of NAV", breaches := breaches,
        message := "Review-status positions are " ++ fmtFixed2 review_weight ++
          "% of portfolio, " ++ (if passed then "within" else "exceeds") ++
          " max " ++ pyNumStr threshold ++ "%.",
        error := false }
    if passed then mk []
    else
      match execSql s
          (sqlPositionsByWeightDesc fund_id
            (fun p => p.compliance_status == "Review")) with
      | Except.error e =>
          _error rule_text rule_type fund_id as_of_date threshold "% of NAV" e
      | Except.ok rows => mk (rows.map breachOfRow)

/-- R009 `check_max_commodity_exposure`: max 15% of portfolio in Commodity
(Python default threshold 15.0). -/
def check_max_commodity_exposure (s : Store) (fund_id as_of_date : String)
    (threshold : Rat) : RuleResult :=
  let rule_text := "max 15% of portfolio in Commodity"
  let rule_type := "MAX_PCT_NAV"
  match execSql s
      (sqlSumWeight fund_id (fun p => p.asset_class == "Commodity")) with
  | Except.error e =>
      _error rule_text rule_type fund_id as_of_date threshold "% of NAV" e
  | Except.ok w? =>
    let commodity_weight := w?.getD 0
    let passed := decide (commodity_weight ≤ threshold)
    let mk : List Breach → RuleResult := fun breaches =>
      { rule := rule_text, rule_type := rule_type, fund_id := fund_id,
        as_of_date := as_of_date, passed := passed,
        metric_value := some (round4 commodity_weight), threshold := some threshold,
        unit := "% of NAV", breaches := breaches,
        message := "Commodity exposure is " ++ fmtFixed2 commodity_weight ++
          "% of portfolio, " ++ (if passed then "within" else "exceeds") ++
          " max " ++ pyNumStr threshold ++ "%.",
        error := false }
    if passed then mk []
    else
      match execSql s
          (sqlPositionsByWeightDesc fund_id
            (fun p => p.asset_class == "Commodity")) with
      | Except.error e =>
          _error rule_text rule_type fund_id as_of_date threshold "% of NAV" e
      | Except.ok rows => mk (rows.map breachOfRow)

/-- R010 `check_max_equity_etf_combined`: max 50% of portfolio in Equity plus
ETF combined (Python default threshold 50.0). -/
def check_max_equity_etf_combined (s : Store) (fund_id as_of_date : String)
    (threshold : Rat) : RuleResult :=
  let rule_text := "max 50% of portfolio in Equity plus ETF combined"
  let rule_type := "MAX_PCT_NAV"
  match execSql s
      (sqlSumWeight fund_id
        (fun p => p.asset_class == "Equity" || p.asset_class == "ETF")) with
  | Except.error e =>
      _error rule_text rule_type fund_id as_of_date threshold "% of NAV" e
  | Except.ok w? =>
    let combined_weight := w?.getD 0
    let passed := decide (combined_weight ≤ threshold)
    let mk : List Breach → RuleResult := fun breaches =>
      { rule := rule_text, rule_type := rule_type, fund_id := fund_id,
        as_of_date := as_of_date, passed := passed,
        metric_value := some (round4 combined_weight), threshold := some threshold,
        unit := "% of NAV", breaches := breaches,
        message := "Equity+ETF combined is " ++ fmtFixed2 combined_weight ++
          "% of portfolio, " ++ (if passed then "within" else "exceeds") ++
          " max " ++ pyNumStr threshold ++ "%.",
        error := false }
    if passed then mk []
    else
      match execSql s
          (sqlPositionsByWeightDesc fund_id
            (fun p => p.asset_class == "Equity" || p.asset_class == "ETF")) with
      | Except.error e =>
          _error rule_text rule_type fund_id as_of_date threshold "% of NAV" e
      | Except.ok rows => mk (rows.map breachOfRow)

/-- R011 `check_min_position_count`: minimum 10 positions in portfolio
(Python default threshold 10).  No breach enumeration. -/
def check_min_position_count (s : Store) (fund_id as_of_date : String)
    (threshold : Rat) : RuleResult :=
  let rule_text := "minimum 10 positions in portfolio"
  let rule_type := "MAX_COUNT"
  match execSql s (sqlCount fund_id (fun _ => true)) with
  | Except.error e =>
      _error rule_text rule_type fund_id as_of_date threshold "count" e
  | Except.ok count =>
    let passed := decide ((count : Rat) ≥ threshold)
    { rule := rule_text, rule_type := rule_type, fund_id := fund_id,
      as_of_date := as_of_date, passed := passed,
      metric_value := some (count : Rat), threshold := some threshold,
      unit := "count", breaches := [],
      message := "Portfolio has " ++ toString count ++ " positions, " ++
        (if passed then "meets" else "below") ++ " minimum of " ++
        pyNumStr threshold ++ ".",
      error := false }

/-- The five largest positions of the fund (`ORDER BY weight_pct DESC LIMIT 5`). -/
def sqlTop5Rows (fund_id : String) (ps : List Position) : List Position :=
  (sqlPositionsByWeightDesc fund_id (fun _ => true) ps).take 5

/-- `SELECT SUM(weight_pct)` over the five largest positions (`none` on an
empty subquery, as SQL `SUM`). -/
def sqlTop5SumWeight (fund_id : String) (ps : List Position) : Option Rat :=
  let rows := sqlTop5Rows fund_id ps
  if rows.isEmpty then none else some (sumWeights rows)

/-- R012 `check_top5_holdings_concentration`: top 5 holdings max 80% of
portfolio (Python default threshold 80.0). -/
def check_top5_holdings_concentration (s : Store) (fund_id as_of_date : String)
    (threshold : Rat) : RuleResult :=
  let rule_text := "top 5 holdings max 80% of portfolio"
  let rule_type := "CONCENTRATION"
  match execSql s (sqlTop5SumWeight fund_id) with
  | Except.error e =>
      _error rule_text rule_type fund_id as_of_date threshold "% of NAV" e
  | Except.ok w? =>
    let top5_weight := w?.getD 0
    let passed := decide (top5_weight ≤ threshold)
    let mk : List Breach → RuleResult := fun breaches =>
      { rule := rule_text, rule_type := rule_type, fund_id := fund_id,
        as_of_date := as_of_date, passed := passed,
        metric_value := some (round4 top5_weight), threshold := some threshold,
        unit := "% of NAV", breaches := breaches,
        message := "Top 5 holdings represent " ++ fmtFixed2 top5_weight ++
          "% of portfolio, " ++ (if passed then "within" else "exceeds") ++
          " max " ++ pyNumStr threshold ++ "%.",
        error := false }
    if passed then mk []
    else
      match execSql s (sqlTop5Rows fund_id) with
      | Except.error e =>
          _error rule_text rule_type fund_id as_of_date threshold "% of NAV" e
      | Except.ok rows => mk (rows.map breachOfRow)

/-- A registry entry: the evaluator as `run_rules` calls it through
`func(**kwargs)` — the threshold kwarg is optional, and omitting it applies
the Python default of the evaluator. -/
def RuleFun : Type :=
  Store → String → String → Option Rat → RuleResult

/-- `RULE_REGISTRY`: rule_id to generated function, with each evaluator
keeping its Python default threshold. -/
def RULE_REGISTRY : List (String × RuleFun) :=
  [ ("R001", fun s f a t => check_max_equity_exposure s f a (t.getD 60)),
    ("R002", fun s f a t => check_no_restricted_positions s f a (t.getD 0)),
    ("R003", fun s f a t => check_max_single_country_concentration s f a (t.getD 30)),
    ("R004", fun s f a t => check_max_single_sector_concentration s f a (t.getD 30)),
    ("R005", fun s f a t => check_max_bond_exposure s f a (t.getD 40)),
    ("R006", fun s f a t => check_min_cash_exposure s f a (t.getD 2)),
    ("R007", fun s f a t => check_max_single_position_weight s f a (t.getD 15)),
    ("R008", fun s f a t => check_max_review_status_exposure s f a (t.getD 20)),
    ("R009", fun s f a t => check_max_commodity_exposure s f a (t.getD 15)),
    ("R010", fun s f a t => check_max_equity_etf_combined s f a (t.getD 50)),
    ("R011", fun s f a t => check_min_position_count s f a (t.getD 10)),
    ("R012", fun s f a t => check_top5_holdings_concentration s f a (t.getD 80)) ]

/-- The `threshold_override` cell of a manifest row, by how
`float(override)` treats it: absent/blank (also the strings "nan"/"None",
which the orchestrator skips), a string parsing as a number, or a
non-numeric string (`float` raises ValueError). -/
inductive ThresholdOverride where
  | blank : ThresholdOverride
  | numeric : Rat → ThresholdOverride
  | junk : String → ThresholdOverride
deriving DecidableEq, Repr

/-- One row of the input manifest (the Rules sheet). -/
structure ManifestRule where
  rule_id : String
  rule_text : String
  threshold_override : ThresholdOverride
  enabled : String
  category : String
  notes : String
deriving DecidableEq, Repr

/-- One row of the output Summary sheet.  The Python code writes the empty
string into `metric_value`/`threshold` of a SKIPPED row and `None` into
those of an ERROR row; both blanks are modelled as `none`. -/
structure SummaryRow where
  rule_id : String
  rule_text : String
  category : String
  status : String
  metric_value : Option Rat
  threshold : Option Rat
  unit : String
  message : String
  breach_count : Nat
  notes : String
deriving DecidableEq, Repr

/-- One row of the output Breaches sheet. -/
structure BreachRow where
  rule_id : String
  rule_text : String
  identifier : String
  description : String
  value : Rat
  unit : String
deriving DecidableEq, Repr

/-- Status of a summary row from an evaluator result:
`"ERROR" if result.get("error") else ("PASS" if result["passed"] else "FAIL")`. -/
def statusOf (r : RuleResult) : String :=
  if r.error then "ERROR" else if r.passed then "PASS" else "FAIL"

/-- The summary row `run_rules` records for a disabled rule. -/
def skippedRowFor (rule_id : String) (rule : ManifestRule) : SummaryRow :=
  { rule_id := rule_id, rule_text := rule.rule_text, category := rule.category,
    status := "SKIPPED", metric_value := none, threshold := none, unit := "",
    message := "Rule disabled", breach_count := 0, notes := rule.notes }

/-- The summary row `run_rules` records for an evaluated rule. -/
def summaryRowFor (rule_id : String) (rule : ManifestRule) (r : RuleResult) :
    SummaryRow :=
  { rule_id := rule_id, rule_text := rule.rule_text, category := rule.category,
    status := statusOf r, metric_value := r.metric_value,
    threshold := r.threshold, unit := r.unit, message := r.message,
    breach_count := r.breaches.length, notes := rule.notes }

/-- The breach rows `run_rules` appends for an evaluated rule. -/
def breachRowsFor (rule_id : String) (rule : ManifestRule) (r : RuleResult) :
    List BreachRow :=
  r.breaches.map (fun b =>
    { rule_id := rule_id, rule_text := rule.rule_text,
      identifier := b.identifier, description := b.description,
      value := b.value, unit := r.unit })

/-- The inline result dictionary `run_rules` builds when the registry has no
function for the rule_id. -/
def noFuncResult (rule_id : String) : RuleResult :=
  { rule := "", rule_type := "", fund_id := "", as_of_date := "",
    passed := false, metric_value := none, threshold := none, unit := "",
    breaches := [],
    message := "No compliance function registered for rule_id " ++ apos ++
      rule_id ++ apos,
    error := true }

/-- The threshold kwarg the orchestrator passes: `some v` when the override
cell parses as a number, otherwise no kwarg (a non-numeric override only
logs a warning and the default is used). -/
def resolveThreshold : ThresholdOverride → Option Rat
  | ThresholdOverride.numeric v => some v
  | _ => none

/-- One iteration of the `run_rules` loop: the summary row and breach rows
of a single manifest rule. -/
def processRule (s : Store) (fund_id as_of_date : String)
    (rule : ManifestRule) : SummaryRow × List BreachRow :=
  let rule_id := trimStr rule.rule_id
  let enabled := upperStr (trimStr rule.enabled)
  if enabled ≠ "TRUE" then (skippedRowFor rule_id rule, [])
  else
    match RULE_REGISTRY.lookup rule_id with
    | none =>
        (summaryRowFor rule_id rule (noFuncResult rule_id),
         breachRowsFor rule_id rule (noFuncResult rule_id))
    | some func =>
        let result := func s fund_id as_of_date
          (resolveThreshold rule.threshold_override)
        (summaryRowFor rule_id rule result, breachRowsFor rule_id rule result)

/-- `run_rules`: the batch loop, appending one summary row per manifest rule
and that rule's breach rows.  The defensive `except` around `func(**kwargs)`
is unreachable in the model because evaluators are total functions. -/
def run_rules (s : Store) (rules : List ManifestRule)
    (fund_id as_of_date : String) : List SummaryRow × List BreachRow :=
  rules.foldl
    (fun acc rule =>
      let pr := processRule s fund_id as_of_date rule
      (acc.1 ++ [pr.1], acc.2 ++ pr.2))
    ([], [])

theorem mem_sortDesc {key : α → Rat} {l : List α} {a : α} :
    a ∈ sortDesc key l ↔ a ∈ l :=
  (List.perm_insertionSort (byKeyDesc key) l).mem_iff

theorem sortDesc_eq_nil_iff {key : α → Rat} {l : List α} :
    sortDesc key l = [] ↔ l = [] := by
  constructor
  · intro h
    have hp := List.perm_insertionSort (byKeyDesc key) l
    rw [sortDesc] at h
    rw [h] at hp
    exact (List.Perm.nil_eq hp).symm
  · intro h
    subst h
    rfl

theorem sortDesc_head_max {key : α → Rat} {l : List α} {x : α} {xs : List α}
    (h : sortDesc key l = x :: xs) : ∀ a ∈ l, key a ≤ key x := by
  intro a ha
  have hs := List.sorted_insertionSort (byKeyDesc key) l
  rw [← sortDesc, h] at hs
  have ham : a ∈ x :: xs := by
    rw [← h]
    exact mem_sortDesc.mpr ha
  rcases List.mem_cons.mp ham with rfl | htail
  · exact le_rfl
  · exact (List.sorted_cons.mp hs).1 a htail

theorem check_max_equity_exposure_props :
    (∀ (ps : List Position) (e f a : String) (t : Rat),
      check_max_equity_exposure ⟨ps, some e⟩ f a t =
        _error "max 60% of portfolio in Equity" "MAX_PCT_NAV" f a t "% of NAV" e) ∧
    (∀ (ps : List Position) (f a : String) (t : Rat),
      (check_max_equity_exposure ⟨ps, none⟩ f a t).error = false) ∧
    (∀ (ps : List Position) (f a : String) (t : Rat),
      (check_max_equity_exposure ⟨ps, none⟩ f a t).passed = true →
      (check_max_equity_exposure ⟨ps, none⟩ f a t).breaches = []) := by
  refine ⟨fun ps e f a t => ?_, fun ps f a t => ?_, fun ps f a t => ?_⟩
  · simp [check_max_equity_exposure, execSql]
  · simp only [check_max_equity_exposure, execSql]
    split <;> simp
  · simp only [check_max_equity_exposure, execSql]
    split
    · simp
    · intro h
      rename_i hcond
      exact absurd h hcond

theorem check_no_restricted_positions_props :
    (∀ (ps : List Position) (e f a : String) (t : Rat),
      check_no_restricted_positions ⟨ps, some e⟩ f a t =
        _error "no positions with Restricted compliance status" "PROHIBITED"
          f a t "count" e) ∧
    (∀ (ps : List Position) (f a : String) (t : Rat),
      (check_no_restricted_positions ⟨ps, none⟩ f a t).error = false) ∧
    (∀ (ps : List Position) (f a : String) (t : Rat),
      (check_no_restricted_positions ⟨ps, none⟩ f a t).passed = true →
      (check_no_restricted_positions ⟨ps, none⟩ f a t).breaches = []) := by
  refine ⟨fun ps e f a t => ?_, fun ps f a t => ?_, fun ps f a t => ?_⟩
  · simp [check_no_restricted_positions, execSql]
  · simp only [check_no_restricted_positions, execSql]
    split <;> simp
  · simp only [check_no_restricted_positions, execSql]
    split
    · simp
    · intro h
      rename_i hcond
      exact absurd h hcond

theorem check_max_single_country_concentration_props :
    (∀ (ps : List Position) (e f a : String) (t : Rat),
      check_max_single_country_concentration ⟨ps, some e⟩ f a t =
        _error "max 30% of portfolio in any single country" "CONCENTRATION"
          f a t "% of NAV" e) ∧
    (∀ (ps : List Position) (f a : String) (t : Rat),
      (check_max_single_country_concentration ⟨ps, none⟩ f a t).error = false) ∧
    (∀ (ps : List Position) (f a : String) (t : Rat),
      (check_max_single_country_concentration ⟨ps, none⟩ f a t).passed = true →
      (check_max_single_country_concentration ⟨ps, none⟩ f a t).breaches = []) := by
  refine ⟨fun ps e f a t => ?_, fun ps f a t => ?_, fun ps f a t => ?_⟩
  · simp [check_max_single_country_concentration, execSql]
  · simp only [check_max_single_country_concentration, execSql]
    split <;> simp [_pass]
  · simp only [check_max_single_country_concentration, execSql]
    split
    · simp [_pass]
    · intro h
      simp only at h ⊢
      simp [h]

theorem check_max_single_sector_concentration_props :
    (∀ (ps : List Position) (e f a : String) (t : Rat),
      check_max_single_sector_concentration ⟨ps, some e⟩ f a t =
        _error "max 30% of portfolio in any single sector" "CONCENTRATION"
          f a t "% of NAV" e) ∧
    (∀ (ps : List Position) (f a : String) (t : Rat),
      (check_max_single_sector_concentration ⟨ps, none⟩ f a t).error = false) ∧
    (∀ (ps : List Position) (f a : String) (t : Rat),
      (check_max_single_sector_concentration ⟨ps, none⟩ f a t).passed = true →
      (check_max_single_sector_concentration ⟨ps, none⟩ f a t).breaches = []) := by
  refine ⟨fun ps e f a t => ?_, fun ps f a t => ?_, fun ps f a t => ?_⟩
  · simp [check_max_single_sector_concentration, execSql]
  · simp only [check_max_single_sector_concentration, execSql]
    split <;> simp [_pass]
  · simp only [check_max_single_sector_concentration, execSql]
    split
    · simp [_pass]
    · intro h
      simp only at h ⊢
      simp [h]

theorem check_max_bond_exposure_props :
    (∀ (ps : List Position) (e f a : String) (t : Rat),
      check_max_bond_exposure ⟨ps, some e⟩ f a t =
        _error "max 40% of portfolio in Bonds" "MAX_PCT_NAV" f a t "% of NAV" e) ∧
    (∀ (ps : List Position) (f a : String) (t : Rat),
      (check_max_bond_exposure ⟨ps, none⟩ f a t).error = false) ∧
    (∀ (ps : List Position) (f a : String) (t : Rat),
      (check_max_bond_exposure ⟨ps, none⟩ f a t).passed = true →
      (check_max_bond_exposure ⟨ps, none⟩ f a t).breaches = []) := by
  refine ⟨fun ps e f a t => ?_, fun ps f a t => ?_, fun ps f a t => ?_⟩
  · simp [check_max_bond_exposure, execSql]
  · simp only [check_max_bond_exposure, execSql]
    split <;> simp
  · simp only [check_max_bond_exposure, execSql]
    split
    · simp
    · intro h
      rename_i hcond
      exact absurd h hcond

theorem check_min_cash_exposure_props :
    (∀ (ps : List Position) (e f a : String) (t : Rat),
      check_min_cash_exposure ⟨ps, some e⟩ f a t =
        _error "min 2% of portfolio in Cash" "MIN_PCT_NAV" f a t "% of NAV" e) ∧
    (∀ (ps : List Position) (f a : String) (t : Rat),
      (check_min_cash_exposure ⟨ps, none⟩ f a t).error = false) ∧
    (∀ (ps : List Position) (f a : String) (t : Rat),
      (check_min_cash_exposure ⟨ps, none⟩ f a t).passed = true →
      (check_min_cash_exposure ⟨ps, none⟩ f a t).breaches = []) := by
  refine ⟨fun ps e f a t => ?_, fun ps f a t => ?_, fun ps f a t => ?_⟩
  · simp [check_min_cash_exposure, execSql]
  · simp [check_min_cash_exposure, execSql]
  · intro _
    simp [check_min_cash_exposure, execSql]

theorem check_max_single_position_weight_props :
    (∀ (ps : List Position) (e f a : String) (t : Rat),
      check_max_single_position_weight ⟨ps, some e⟩ f a t =
        _error "no single position to exceed 15% of NAV" "CONCENTRATION"
          f a t "% of NAV" e) ∧
    (∀ (ps : List Position) (f a : String) (t : Rat),
      (check_max_single_position_weight ⟨ps, none⟩ f a t).error = false) ∧
    (∀ (ps : List Position) (f a : String) (t : Rat),
      (check_max_single_position_weight ⟨ps, none⟩ f a t).passed = true →
      (check_max_single_position_weight ⟨ps, none⟩ f a t).breaches = []) := by
  refine ⟨fun ps e f a t => ?_, fun ps f a t => ?_, fun ps f a t => ?_⟩
  · simp [check_max_single_position_weight, execSql]
  · simp only [check_max_single_position_weight, execSql]
    split <;> simp [_pass]
  · simp only [check_max_single_position_weight, execSql]
    split
    · simp [_pass]
    · intro h
      simp only at h ⊢
      simp [h]

theorem check_max_review_status_exposure_props :
    (∀ (ps : List Position) (e f a : String) (t : Rat),
      check_max_review_status_exposure ⟨ps, some e⟩ f a t =
        _error "max 20% of portfolio in Review status positions" "MAX_PCT_NAV"
          f a t "% of NAV" e) ∧
    (∀ (ps : List Position) (f a : String) (t : Rat),
      (check_max_review_status_exposure ⟨ps, none⟩ f a t).error = false) ∧
    (∀ (ps : List Position) (f a : String) (t : Rat),
      (check_max_review_status_exposure ⟨ps, none⟩ f a t).passed = true →
      (check_max_review_status_exposure ⟨ps, none⟩ f a t).breaches = []) := by
  refine ⟨fun ps e f a t => ?_, fun ps f a t => ?_, fun ps f a t => ?_⟩
  · simp [check_max_review_status_exposure, execSql]
  · simp only [check_max_review_status_exposure, execSql]
    split <;> simp
  · simp only [check_max_review_status_exposure, execSql]
    split
    · simp
    · intro h
      rename_i hcond
      exact absurd h hcond

theorem check_max_commodity_exposure_props :
    (∀ (ps : List Position) (e f a : String) (t : Rat),
      check_max_commodity_exposure ⟨ps, some e⟩ f a t =
        _error "max 15% of portfolio in Commodity" "MAX_PCT_NAV" f a t "% of NAV" e) ∧
    (∀ (ps : List Position) (f a : String) (t : Rat),
      (check_max_commodity_exposure ⟨ps, none⟩ f a t).error = false) ∧
    (∀ (ps : List Position) (f a : String) (t : Rat),
      (check_max_commodity_exposure ⟨ps, none⟩ f a t).passed = true →
      (check_max_commodity_exposure ⟨ps, none⟩ f a t).breaches = []) := by
  refine ⟨fun ps e f a t => ?_, fun ps f a t => ?_, fun ps f a t => ?_⟩
  · simp [check_max_commodity_exposure, execSql]
  · simp only [check_max_commodity_exposure, execSql]
    split <;> simp
  · simp only [check_max_commodity_exposure, execSql]
    split
    · simp
    · intro h
      rename_i hcond
      exact absurd h hcond

theorem check_max_equity_etf_combined_props :
    (∀ (ps : List Position) (e f a : String) (t : Rat),
      check_max_equity_etf_combined ⟨ps, some e⟩ f a t =
        _error "max 50% of portfolio in Equity plus ETF combined" "MAX_PCT_NAV"
          f a t "% of NAV" e) ∧
    (∀ (ps : List Position) (f a : String) (t : Rat),
      (check_max_equity_etf_combined ⟨ps, none⟩ f a t).error = false) ∧
    (∀ (ps : List Position) (f a : String) (t : Rat),
      (check_max_equity_etf_combined ⟨ps, none⟩ f a t).passed = true →
      (check_max_equity_etf_combined ⟨ps, none⟩ f a t).breaches = []) := by
  refine ⟨fun ps e f a t => ?_, fun ps f a t => ?_, fun ps f a t => ?_⟩
  · simp [check_max_equity_etf_combined, execSql]
  · simp only [check_max_equity_etf_combined, execSql]
    split <;> simp
  · simp only [check_max_equity_etf_combined, execSql]
    split
    · simp
    · intro h
      rename_i hcond
      exact absurd h hcond

theorem check_min_position_count_props :
    (∀ (ps : List Position) (e f a : String) (t : Rat),
      check_min_position_count ⟨ps, some e⟩ f a t =
        _error "minimum 10 positions in portfolio" "MAX_COUNT" f a t "count" e) ∧
    (∀ (ps : List Position) (f a : String) (t : Rat),
      (check_min_position_count ⟨ps, none⟩ f a t).error = false) ∧
    (∀ (ps : List Position) (f a : String) (t : Rat),
      (check_min_position_count ⟨ps, none⟩ f a t).passed = true →
      (check_min_position_count ⟨ps, none⟩ f a t).breaches = []) := by
  refine ⟨fun ps e f a t => ?_, fun ps f a t => ?_, fun ps f a t => ?_⟩
  · simp [check_min_position_count, execSql]
  · simp [check_min_position_count, execSql]
  · intro _
    simp [check_min_position_count, execSql]

theorem check_top5_holdings_concentration_props :
    (∀ (ps : List Position) (e f a : String) (t : Rat),
      check_top5_holdings_concentration ⟨ps, some e⟩ f a t =
        _error "top 5 holdings max 80% of portfolio" "CONCENTRATION"
          f a t "% of NAV" e) ∧
    (∀ (ps : List Position) (f a : String) (t : Rat),
      (check_top5_holdings_concentration ⟨ps, none⟩ f a t).error = false) ∧
    (∀ (ps : List Position) (f a : String) (t : Rat),
      (check_top5_holdings_concentration ⟨ps, none⟩ f a t).passed = true →
      (check_top5_holdings_concentration ⟨ps, none⟩ f a t).breaches = []) := by
  refine ⟨fun ps e f a t => ?_, fun ps f a t => ?_, fun ps f a t => ?_⟩
  · simp [check_top5_holdings_concentration, execSql]
  · simp only [check_top5_holdings_concentration, execSql]
    split <;> simp
  · simp only [check_top5_holdings_concentration, execSql]
    split
    · simp
    · intro h
      rename_i hcond
      exact absurd h hcond


/-- Shared facts about every registered evaluator, however the optional
threshold kwarg is filled: a data-access failure yields the `_error` shape
(error, not passed, no breaches, message carrying the exception text); a
healthy store never yields an error result; a passing result carries no
breaches. -/
theorem registry_entry_props :
    ∀ entry ∈ RULE_REGISTRY,
      ∀ (ps : List Position) (f a : String) (t? : Option Rat),
      (∀ e,
        (entry.2 ⟨ps, some e⟩ f a t?).error = true ∧
        (entry.2 ⟨ps, some e⟩ f a t?).passed = false ∧
        (entry.2 ⟨ps, some e⟩ f a t?).breaches = [] ∧
        (entry.2 ⟨ps, some e⟩ f a t?).message = "Error during rule check: " ++ e) ∧
      ((entry.2 ⟨ps, none⟩ f a t?).error = false) ∧
      ((entry.2 ⟨ps, none⟩ f a t?).passed = true →
        (entry.2 ⟨ps, none⟩ f a t?).breaches = []) := by
  intro entry hmem ps f a t?
  fin_cases hmem
  · exact ⟨fun e => by
        simp [check_max_equity_exposure_props.1 ps e f a (t?.getD 60), _error],
      check_max_equity_exposure_props.2.1 ps f a (t?.getD 60),
      check_max_equity_exposure_props.2.2 ps f a (t?.getD 60)⟩
  · exact ⟨fun e => by
        simp [check_no_restricted_positions_props.1 ps e f a (t?.getD 0), _error],
      check_no_restricted_positions_props.2.1 ps f a (t?.getD 0),
      check_no_restricted_positions_props.2.2 ps f a (t?.getD 0)⟩
  · exact ⟨fun e => by
        simp [check_max_single_country_concentration_props.1 ps e f a (t?.getD 30), _error],
      check_max_single_country_concentration_props.2.1 ps f a (t?.getD 30),
      check_max_single_country_concentration_props.2.2 ps f a (t?.getD 30)⟩
  · exact ⟨fun e => by
        simp [check_max_single_sector_concentration_props.1 ps e f a (t?.getD 30), _error],
      check_max_single_sector_concentration_props.2.1 ps f a (t?.getD 30),
      check_max_single_sector_concentration_props.2.2 ps f a (t?.getD 30)⟩
  · exact ⟨fun e => by
        simp [check_max_bond_exposure_props.1 ps e f a (t?.getD 40), _error],
      check_max_bond_exposure_props.2.1 ps f a (t?.getD 40),
      check_max_bond_exposure_props.2.2 ps f a (t?.getD 40)⟩
  · exact ⟨fun e => by
        simp [check_min_cash_exposure_props.1 ps e f a (t?.getD 2), _error],
      check_min_cash_exposure_props.2.1 ps f a (t?.getD 2),
      check_min_cash_exposure_props.2.2 ps f a (t?.getD 2)⟩
  · exact ⟨fun e => by
        simp [check_max_single_position_weight_props.1 ps e f a (t?.getD 15), _error],
      check_max_single_position_weight_props.2.1 ps f a (t?.getD 15),
      check_max_single_position_weight_props.2.2 ps f a (t?.getD 15)⟩
  · exact ⟨fun e => by
        simp [check_max_review_status_exposure_props.1 ps e f a (t?.getD 20), _error],
      check_max_review_status_exposure_props.2.1 ps f a (t?.getD 20),
      check_max_review_status_exposure_props.2.2 ps f a (t?.getD 20)⟩
  · exact ⟨fun e => by
        simp [check_max_commodity_exposure_props.1 ps e f a (t?.getD 15), _error],
      check_max_commodity_exposure_props.2.1 ps f a (t?.getD 15),
      check_max_commodity_exposure_props.2.2 ps f a (t?.getD 15)⟩
  · exact ⟨fun e => by
        simp [check_max_equity_etf_combined_props.1 ps e f a (t?.getD 50), _error],
      check_max_equity_etf_combined_props.2.1 ps f a (t?.getD 50),
      check_max_equity_etf_combined_props.2.2 ps f a (t?.getD 50)⟩
  · exact ⟨fun e => by
        simp [check_min_position_count_props.1 ps e f a (t?.getD 10), _error],
      check_min_position_count_props.2.1 ps f a (t?.getD 10),
      check_min_position_count_props.2.2 ps f a (t?.getD 10)⟩
  · exact ⟨fun e => by
        simp [check_top5_holdings_concentration_props.1 ps e f a (t?.getD 80), _error],
      check_top5_holdings_concentration_props.2.1 ps f a (t?.getD 80),
      check_top5_holdings_concentration_props.2.2 ps f a (t?.getD 80)⟩

theorem run_rules_foldl_general (s : Store) (f a : String) :
    ∀ (rules : List ManifestRule) (acc : List SummaryRow × List BreachRow),
      rules.foldl
        (fun acc rule =>
          let pr := processRule s f a rule
          (acc.1 ++ [pr.1], acc.2 ++ pr.2)) acc =
      (acc.1 ++ rules.map (fun r => (processRule s f a r).1),
       acc.2 ++ (rules.map (fun r => (processRule s f a r).2)).flatten)
  | [], acc => by simp
  | r :: rest, acc => by
      simp only [List.foldl_cons, List.map_cons, List.flatten_cons]
      rw [run_rules_foldl_general s f a rest]
      simp

/-- `run_rules` in closed form: one summary row per manifest rule, in
manifest order, and the concatenation of each rule's breach rows. -/
theorem run_rules_eq (s : Store) (rules : List ManifestRule) (f a : String) :
    run_rules s rules f a =
      (rules.map (fun r => (processRule s f a r).1),
       (rules.map (fun r => (processRule s f a r).2)).flatten) := by
  rw [run_rules, run_rules_foldl_general s f a rules ([], [])]
  simp

theorem lookup_entry_mem {β : Type _} :
    ∀ {l : List (String × β)} {k : String} {v : β},
      l.lookup k = some v → ∃ p ∈ l, p.2 = v
  | [], k, v => by simp [List.lookup]
  | (a, b) :: es, k, v => by
      simp only [List.lookup]
      split
      · intro h
        cases h
        exact ⟨(a, b), List.mem_cons_self _ _, rfl⟩
      · intro h
        obtain ⟨p, hp, hv⟩ := lookup_entry_mem h
        exact ⟨p, List.mem_cons_of_mem _ hp, hv⟩

theorem map_const_replicate {β γ : Type _} {l : List β} {c : γ} :
    l.map (fun _ => c) = List.replicate l.length c := by
  induction l with
  | nil => rfl
  | cons x xs ih => simp [List.replicate, ih]

/-- Per-rule facts of the orchestrator loop: the summary row's status is one
of the four, a non-FAIL row has breach count 0, the breach rows of the rule
are as many as its breach count, and each carries the rule's (stripped)
rule_id. -/
theorem processRule_props (s : Store) (f a : String) (rule : ManifestRule) :
    ((processRule s f a rule).1.status = "PASS" ∨
     (processRule s f a rule).1.status = "FAIL" ∨
     (processRule s f a rule).1.status = "ERROR" ∨
     (processRule s f a rule).1.status = "SKIPPED") ∧
    ((processRule s f a rule).1.status ≠ "FAIL" →
      (processRule s f a rule).1.breach_count = 0) ∧
    ((processRule s f a rule).2.length = (processRule s f a rule).1.breach_count) ∧
    ((processRule s f a rule).2.map (fun br => br.rule_id) =
      List.replicate (processRule s f a rule).2.length (trimStr rule.rule_id)) := by
  rcases s with ⟨ps, err⟩
  by_cases hen : upperStr (trimStr rule.enabled) = "TRUE"
  case neg =>
    simp [processRule, hen, skippedRowFor]
  case pos =>
    cases hlk : RULE_REGISTRY.lookup (trimStr rule.rule_id) with
    | none =>
        simp [processRule, hen, hlk, summaryRowFor, breachRowsFor, noFuncResult,
          statusOf]
    | some func =>
        obtain ⟨entry, hmem, hfn⟩ := lookup_entry_mem hlk
        have hp := registry_entry_props entry hmem ps f a
          (resolveThreshold rule.threshold_override)
        rw [hfn] at hp
        cases err with
        | some e =>
            obtain ⟨h1, _, h3, _⟩ := hp.1 e
            simp [processRule, hen, hlk, summaryRowFor, breachRowsFor, statusOf,
              h1, h3, map_const_replicate, Function.comp]
        | none =>
            have herr := hp.2.1
            have hbr := hp.2.2
            cases hpass : (func ⟨ps, none⟩ f a
                (resolveThreshold rule.threshold_override)).passed with
            | true =>
                have hb := hbr hpass
                simp [processRule, hen, hlk, summaryRowFor, breachRowsFor,
                  statusOf, herr, hpass, hb, map_const_replicate]
            | false =>
                simp [processRule, hen, hlk, summaryRowFor, breachRowsFor,
                  statusOf, herr, hpass, map_const_replicate, Function.comp]
                exact map_const_replicate

/-- C1: for every registered rule evaluator and every failure raised by the
data accessor (`execute_sql`), the evaluator returns an ERROR result whose
message carries the exception text, with passed = false; evaluators are
total functions of the store, so no exception ever reaches the
orchestrator. -/
theorem claim_C1_accessor_failure_to_error :
    ∀ entry ∈ RULE_REGISTRY,
      ∀ (ps : List Position) (e fund_id as_of_date : String) (t? : Option Rat),
        (entry.2 ⟨ps, some e⟩ fund_id as_of_date t?).error = true ∧
        (entry.2 ⟨ps, some e⟩ fund_id as_of_date t?).passed = false ∧
        (entry.2 ⟨ps, some e⟩ fund_id as_of_date t?).message =
          "Error during rule check: " ++ e := by
  intro entry hmem ps e f a t?
  obtain ⟨h1, h2, _, h4⟩ := (registry_entry_props entry hmem ps f a t?).1 e
  exact ⟨h1, h2, h4⟩

/-- Witness for C1: the R001 entry on a concrete failing store. -/
theorem claim_C1_witness :
    (check_max_equity_exposure ⟨[], some "db down"⟩ "1" "2024-01-31" 60).error = true ∧
    (check_max_equity_exposure ⟨[], some "db down"⟩ "1" "2024-01-31" 60).passed = false ∧
    (check_max_equity_exposure ⟨[], some "db down"⟩ "1" "2024-01-31" 60).message =
      "Error during rule check: " ++ "db down" := by
  have h := claim_C1_accessor_failure_to_error
    ("R001", fun s f a t => check_max_equity_exposure s f a (t.getD 60))
    (by simp [RULE_REGISTRY]) [] "db down" "1" "2024-01-31" none
  simpa using h

/-- C2: every summary row of a batch run has exactly one of the four
statuses PASS, FAIL, ERROR, SKIPPED, and a row whose status is not FAIL
always has breach_count 0 (its evaluation result carries no breaches). -/
theorem claim_C2_status_invariant :
    ∀ (s : Store) (rules : List ManifestRule) (fund_id as_of_date : String),
      ∀ row ∈ (run_rules s rules fund_id as_of_date).1,
        (row.status = "PASS" ∨ row.status = "FAIL" ∨ row.status = "ERROR" ∨
          row.status = "SKIPPED") ∧
        (row.status ≠ "FAIL" → row.breach_count = 0) := by
  intro s rules f a row hrow
  rw [run_rules_eq] at hrow
  rw [List.mem_map] at hrow
  obtain ⟨r, _, rfl⟩ := hrow
  exact ⟨(processRule_props s f a r).1, (processRule_props s f a r).2.1⟩

def c2Rule : ManifestRule :=
  ⟨"R001", "max 60% of portfolio in Equity", ThresholdOverride.blank, "FALSE",
    "Asset Class", ""⟩

/-- Witness for C2: the summary row of a concrete one-rule run. -/
theorem claim_C2_witness :
    (((processRule ⟨[], none⟩ "1" "2024-01-31" c2Rule).1.status = "PASS" ∨
      (processRule ⟨[], none⟩ "1" "2024-01-31" c2Rule).1.status = "FAIL" ∨
      (processRule ⟨[], none⟩ "1" "2024-01-31" c2Rule).1.status = "ERROR" ∨
      (processRule ⟨[], none⟩ "1" "2024-01-31" c2Rule).1.status = "SKIPPED") ∧
     ((processRule ⟨[], none⟩ "1" "2024-01-31" c2Rule).1.status ≠ "FAIL" →
       (processRule ⟨[], none⟩ "1" "2024-01-31" c2Rule).1.breach_count = 0)) := by
  have hmem : (processRule ⟨[], none⟩ "1" "2024-01-31" c2Rule).1 ∈
      (run_rules ⟨[], none⟩ [c2Rule] "1" "2024-01-31").1 := by
    rw [run_rules_eq]
    simp
  exact claim_C2_status_invariant ⟨[], none⟩ [c2Rule] "1" "2024-01-31" _ hmem

/-- C3: for every max-type evaluator and every min-type evaluator, a
computed metric exactly equal to the threshold yields passed = true — the
pass boundary is inclusive on both sides. -/
theorem claim_C3_boundary_inclusive :
    ∀ (ps : List Position) (f a : String) (t : Rat),
      ((sqlSumWeight f (fun p => p.asset_class == "Equity") ps).getD 0 = t →
        (check_max_equity_exposure ⟨ps, none⟩ f a t).passed = true) ∧
      ((sqlSumWeight f (fun p => p.asset_class == "Bond") ps).getD 0 = t →
        (check_max_bond_exposure ⟨ps, none⟩ f a t).passed = true) ∧
      ((sqlSumWeight f (fun p => p.compliance_status == "Review") ps).getD 0 = t →
        (check_max_review_status_exposure ⟨ps, none⟩ f a t).passed = true) ∧
      ((sqlSumWeight f (fun p => p.asset_class == "Commodity") ps).getD 0 = t →
        (check_max_commodity_exposure ⟨ps, none⟩ f a t).passed = true) ∧
      ((sqlSumWeight f
          (fun p => p.asset_class == "Equity" || p.asset_class == "ETF") ps).getD 0 = t →
        (check_max_equity_etf_combined ⟨ps, none⟩ f a t).passed = true) ∧
      ((sqlTop5SumWeight f ps).getD 0 = t →
        (check_top5_holdings_concentration ⟨ps, none⟩ f a t).passed = true) ∧
      ((sqlSumWeight f (fun p => p.asset_class == "Cash") ps).getD 0 = t →
        (check_min_cash_exposure ⟨ps, none⟩ f a t).passed = true) ∧
      (((sqlCount f (fun _ => true) ps : Nat) : Rat) = t →
        (check_min_position_count ⟨ps, none⟩ f a t).passed = true) ∧
      (∀ k rest, sqlGroupSumDesc f (fun p => p.country) ps = (k, t) :: rest →
        (check_max_single_country_concentration ⟨ps, none⟩ f a t).passed = true) ∧
      (∀ k rest, sqlGroupSumDesc f (fun p => p.sector) ps = (k, t) :: rest →
        (check_max_single_sector_concentration ⟨ps, none⟩ f a t).passed = true) ∧
      (∀ p0 rest, sqlPositionsByWeightDesc f (fun _ => true) ps = p0 :: rest →
        p0.weight_pct = t →
        (check_max_single_position_weight ⟨ps, none⟩ f a t).passed = true) := by
  intro ps f a t
  refine ⟨fun h => ?_, fun h => ?_, fun h => ?_, fun h => ?_, fun h => ?_,
    fun h => ?_, fun h => ?_, fun h => ?_, fun k rest h => ?_,
    fun k rest h => ?_, fun p0 rest h hw => ?_⟩
  · simp [check_max_equity_exposure, execSql, h]
  · simp [check_max_bond_exposure, execSql, h]
  · simp [check_max_review_status_exposure, execSql, h]
  · simp [check_max_commodity_exposure, execSql, h]
  · simp [check_max_equity_etf_combined, execSql, h]
  · simp [check_top5_holdings_concentration, execSql, h]
  · simp [check_min_cash_exposure, execSql, h]
  · simp [check_min_position_count, execSql, h]
  · simp [check_max_single_country_concentration, execSql, h]
  · simp [check_max_single_sector_concentration, execSql, h]
  · simp [check_max_single_position_weight, execSql, h, hw]

def c3psEquity : List Position :=
  [⟨"EQ1", "Alpha Corp", "1", "Equity", "US", "Tech", 60, "Clear"⟩]

def c3psCash : List Position :=
  [⟨"CA1", "Cash USD", "1", "Cash", "US", "Cash", 2, "Clear"⟩]

/-- Witness for C3: a fund whose equity weight is exactly the 60 threshold
passes R001, and one whose cash weight is exactly the 2 threshold passes
R006. -/
theorem claim_C3_witness :
    (check_max_equity_exposure ⟨c3psEquity, none⟩ "1" "2024-01-31" 60).passed = true ∧
    (check_min_cash_exposure ⟨c3psCash, none⟩ "1" "2024-01-31" 2).passed = true := by
  constructor
  · exact (claim_C3_boundary_inclusive c3psEquity "1" "2024-01-31" 60).1
      (by simp [sqlSumWeight, positionsOf, sumWeights, c3psEquity, List.filter])
  · exact (claim_C3_boundary_inclusive c3psCash "1" "2024-01-31" 2).2.2.2.2.2.2.1
      (by simp [sqlSumWeight, positionsOf, sumWeights, c3psCash, List.filter])

theorem subOccurs_nil_pat (l : List Char) : subOccurs [] l = true := by
  induction l with
  | nil => rfl
  | cons c cs ih => simp [subOccurs, List.isPrefixOf]

theorem isPrefixOf_append_right {l1 l2 l3 : List Char}
    (h : l1.isPrefixOf l2 = true) : l1.isPrefixOf (l2 ++ l3) = true := by
  rw [List.isPrefixOf_iff_prefix] at h ⊢
  exact h.trans (List.prefix_append l2 l3)

theorem subOccurs_append_right (pat l1 l2 : List Char)
    (h : subOccurs pat l1 = true) : subOccurs pat (l1 ++ l2) = true := by
  induction l1 with
  | nil =>
      simp [subOccurs] at h
      simp [h, subOccurs_nil_pat]
  | cons c cs ih =>
      simp only [subOccurs, Bool.or_eq_true] at h
      rcases h with h | h
      · simp only [List.cons_append, subOccurs, Bool.or_eq_true]
        exact Or.inl (isPrefixOf_append_right h)
      · simp only [List.cons_append, subOccurs, Bool.or_eq_true]
        exact Or.inr (ih h)

def c4Rule : ManifestRule :=
  ⟨"R099", "unknown rule", ThresholdOverride.blank, "TRUE", "", ""⟩

/-- Counterexample for C4 as stated: the summary row for the unknown
rule_id R099 has status ERROR and breach_count 0, yet its message does not
contain the substring "no function registered" — the actual message reads
"No compliance function registered for rule_id …". -/
theorem claim_C4_counterexample :
    ((run_rules ⟨[], none⟩ [c4Rule] "1" "2024-01-31").1.map
      (fun row => (row.status, row.breach_count,
        strContainsSub row.message "no function registered"))) =
      [("ERROR", 0, false)] := by
  decide

/-- C4 amended: for every enabled manifest rule whose rule_id has no entry
in the registry, `run_rules` records a summary row with status ERROR, a
message containing "function registered" (in full: "No compliance function
registered for rule_id …"), and breach_count 0, and the batch run continues
with the remaining rules rather than raising. -/
theorem claim_C4_amended :
    ∀ (s : Store) (rule : ManifestRule) (rest : List ManifestRule)
      (fund_id as_of_date : String),
      upperStr (trimStr rule.enabled) = "TRUE" →
      RULE_REGISTRY.lookup (trimStr rule.rule_id) = none →
      ∃ row, (run_rules s (rule :: rest) fund_id as_of_date).1 =
          row :: (run_rules s rest fund_id as_of_date).1 ∧
        row.status = "ERROR" ∧
        strContainsSub row.message "function registered" = true ∧
        row.breach_count = 0 ∧
        (run_rules s (rule :: rest) fund_id as_of_date).2 =
          (run_rules s rest fund_id as_of_date).2 := by
  intro s rule rest f a hen hlk
  refine ⟨(processRule s f a rule).1, ?_, ?_, ?_, ?_, ?_⟩
  · rw [run_rules_eq, run_rules_eq]
    simp
  · simp [processRule, hen, hlk, summaryRowFor, noFuncResult, statusOf]
  · have hrow : (processRule s f a rule).1.message =
        "No compliance function registered for rule_id " ++ apos ++
          trimStr rule.rule_id ++ apos := by
      simp [processRule, hen, hlk, summaryRowFor, noFuncResult]
    rw [hrow]
    have hA : subOccurs ("function registered".data)
        ("No compliance function registered for rule_id ".data) = true := by
      decide
    simp only [strContainsSub, String.data_append, List.append_assoc]
    exact subOccurs_append_right _ _ _ hA
  · simp [processRule, hen, hlk, summaryRowFor, noFuncResult]
  · rw [run_rules_eq, run_rules_eq]
    simp [processRule, hen, hlk, breachRowsFor, noFuncResult]

/-- Witness for C4 amended: the R099 rule on an empty, healthy store. -/
theorem claim_C4_witness :
    ∃ row, (run_rules ⟨[], none⟩ [c4Rule] "1" "2024-01-31").1 =
        row :: (run_rules ⟨[], none⟩ ([] : List ManifestRule) "1" "2024-01-31").1 ∧
      row.status = "ERROR" ∧
      strContainsSub row.message "function registered" = true ∧
      row.breach_count = 0 ∧
      (run_rules ⟨[], none⟩ [c4Rule] "1" "2024-01-31").2 =
        (run_rules ⟨[], none⟩ ([] : List ManifestRule) "1" "2024-01-31").2 :=
  claim_C4_amended ⟨[], none⟩ c4Rule [] "1" "2024-01-31" (by decide) (by rfl)

/-- C5: threshold override handling, for every enabled rule dispatched to a
registered evaluator.  A numeric override is passed to the evaluator in
place of its default; a non-numeric override is dropped, so the evaluator
is invoked with no threshold kwarg and its declared default applies; the
override never turns the rule into an ERROR (on a healthy store the row is
PASS or FAIL), and the run cannot crash (the model is a total function). -/
theorem claim_C5_threshold_override :
    ∀ (s : Store) (fund_id as_of_date : String) (rule : ManifestRule)
      (func : RuleFun),
      upperStr (trimStr rule.enabled) = "TRUE" →
      RULE_REGISTRY.lookup (trimStr rule.rule_id) = some func →
      (∀ v, rule.threshold_override = ThresholdOverride.numeric v →
        processRule s fund_id as_of_date rule =
          (summaryRowFor (trimStr rule.rule_id) rule
            (func s fund_id as_of_date (some v)),
           breachRowsFor (trimStr rule.rule_id) rule
            (func s fund_id as_of_date (some v)))) ∧
      (∀ ov, rule.threshold_override = ThresholdOverride.junk ov →
        processRule s fund_id as_of_date rule =
          (summaryRowFor (trimStr rule.rule_id) rule
            (func s fund_id as_of_date none),
           breachRowsFor (trimStr rule.rule_id) rule
            (func s fund_id as_of_date none))) ∧
      (∀ ov, rule.threshold_override = ThresholdOverride.junk ov →
        s.dbError = none →
        ((processRule s fund_id as_of_date rule).1.status = "PASS" ∨
         (processRule s fund_id as_of_date rule).1.status = "FAIL")) := by
  intro s f a rule func hen hlk
  refine ⟨fun v hov => ?_, fun ov hov => ?_, fun ov hov hdb => ?_⟩
  · simp [processRule, hen, hlk, resolveThreshold, hov]
  · simp [processRule, hen, hlk, resolveThreshold, hov]
  · obtain ⟨entry, hmem, hfn⟩ := lookup_entry_mem hlk
    rcases s with ⟨ps, err⟩
    cases hdb
    have hp := registry_entry_props entry hmem ps f a
      (resolveThreshold rule.threshold_override)
    rw [hfn] at hp
    have herr := hp.2.1
    cases hpass : (func ⟨ps, none⟩ f a
        (resolveThreshold rule.threshold_override)).passed with
    | true =>
        exact Or.inl (by
          simp [processRule, hen, hlk, summaryRowFor, statusOf, herr, hpass])
    | false =>
        exact Or.inr (by
          simp [processRule, hen, hlk, summaryRowFor, statusOf, herr, hpass])

def c5Rule : ManifestRule :=
  ⟨"R006", "min 2% of portfolio in Cash", ThresholdOverride.junk "abc", "TRUE",
    "Liquidity", ""⟩

/-- Witness for C5: rule R006 with the non-numeric override "abc" on a
healthy, empty store runs the evaluator with the default threshold 2 and
yields an ordinary PASS or FAIL row. -/
theorem claim_C5_witness :
    processRule ⟨[], none⟩ "1" "2024-01-31" c5Rule =
      (summaryRowFor (trimStr c5Rule.rule_id) c5Rule
        (check_min_cash_exposure ⟨[], none⟩ "1" "2024-01-31" 2),
       breachRowsFor (trimStr c5Rule.rule_id) c5Rule
        (check_min_cash_exposure ⟨[], none⟩ "1" "2024-01-31" 2)) ∧
    ((processRule ⟨[], none⟩ "1" "2024-01-31" c5Rule).1.status = "PASS" ∨
     (processRule ⟨[], none⟩ "1" "2024-01-31" c5Rule).1.status = "FAIL") := by
  have h := claim_C5_threshold_override ⟨[], none⟩ "1" "2024-01-31" c5Rule
    (fun s f a t => check_min_cash_exposure s f a (t.getD 2)) (by decide) (by rfl)
  refine ⟨?_, h.2.2 "abc" rfl rfl⟩
  have h2 := h.2.1 "abc" rfl
  simpa using h2

theorem rat_floor_zero : Rat.floor 0 = 0 := rfl

theorem round4_zero : round4 0 = 0 := by
  norm_num [round4, roundHalfEven, rat_floor_zero]

/-- C6: every sum-based (max-type or min-type percentage-of-NAV) evaluator
run against a fund with zero matching positions reports metric 0.0 and
passes exactly when the threshold makes 0 compliant: each max-type rule
(equity, bond, review-status, commodity, equity+ETF) passes whenever
0 ≤ threshold, the min-cash rule passes whenever threshold ≤ 0, and in
particular the min-cash rule at its default threshold 2 fails, since
0 < 2. -/
theorem claim_C6_zero_matching :
    ∀ (ps : List Position) (fund_id as_of_date : String) (t : Rat),
      ((positionsOf fund_id ps).filter (fun p => p.asset_class == "Equity") = [] →
        (check_max_equity_exposure ⟨ps, none⟩ fund_id as_of_date t).metric_value =
          some 0 ∧
        (0 ≤ t →
          (check_max_equity_exposure ⟨ps, none⟩ fund_id as_of_date t).passed =
            true)) ∧
      ((positionsOf fund_id ps).filter (fun p => p.asset_class == "Bond") = [] →
        (check_max_bond_exposure ⟨ps, none⟩ fund_id as_of_date t).metric_value =
          some 0 ∧
        (0 ≤ t →
          (check_max_bond_exposure ⟨ps, none⟩ fund_id as_of_date t).passed =
            true)) ∧
      ((positionsOf fund_id ps).filter
          (fun p => p.compliance_status == "Review") = [] →
        (check_max_review_status_exposure ⟨ps, none⟩ fund_id as_of_date
          t).metric_value = some 0 ∧
        (0 ≤ t →
          (check_max_review_status_exposure ⟨ps, none⟩ fund_id as_of_date
            t).passed = true)) ∧
      ((positionsOf fund_id ps).filter
          (fun p => p.asset_class == "Commodity") = [] →
        (check_max_commodity_exposure ⟨ps, none⟩ fund_id as_of_date
          t).metric_value = some 0 ∧
        (0 ≤ t →
          (check_max_commodity_exposure ⟨ps, none⟩ fund_id as_of_date t).passed =
            true)) ∧
      ((positionsOf fund_id ps).filter
          (fun p => p.asset_class == "Equity" || p.asset_class == "ETF") = [] →
        (check_max_equity_etf_combined ⟨ps, none⟩ fund_id as_of_date
          t).metric_value = some 0 ∧
        (0 ≤ t →
          (check_max_equity_etf_combined ⟨ps, none⟩ fund_id as_of_date t).passed =
            true)) ∧
      ((positionsOf fund_id ps).filter (fun p => p.asset_class == "Cash") = [] →
        (check_min_cash_exposure ⟨ps, none⟩ fund_id as_of_date t).metric_value =
          some 0 ∧
        (t ≤ 0 →
          (check_min_cash_exposure ⟨ps, none⟩ fund_id as_of_date t).passed =
            true) ∧
        (check_min_cash_exposure ⟨ps, none⟩ fund_id as_of_date 2).passed = false) := by
  intro ps f a t
  refine ⟨fun h => ⟨?_, fun ht => ?_⟩, fun h => ⟨?_, fun ht => ?_⟩,
    fun h => ⟨?_, fun ht => ?_⟩, fun h => ⟨?_, fun ht => ?_⟩,
    fun h => ⟨?_, fun ht => ?_⟩, fun h => ⟨?_, fun ht => ?_, ?_⟩⟩
  · simp [check_max_equity_exposure, execSql, sqlSumWeight, h, round4_zero]
    split <;> rfl
  · simp [check_max_equity_exposure, execSql, sqlSumWeight, h, ht]
  · simp [check_max_bond_exposure, execSql, sqlSumWeight, h, round4_zero]
    split <;> rfl
  · simp [check_max_bond_exposure, execSql, sqlSumWeight, h, ht]
  · simp [check_max_review_status_exposure, execSql, sqlSumWeight, h, round4_zero]
    split <;> rfl
  · simp [check_max_review_status_exposure, execSql, sqlSumWeight, h, ht]
  · simp [check_max_commodity_exposure, execSql, sqlSumWeight, h, round4_zero]
    split <;> rfl
  · simp [check_max_commodity_exposure, execSql, sqlSumWeight, h, ht]
  · simp [check_max_equity_etf_combined, execSql, sqlSumWeight, h, round4_zero]
    split <;> rfl
  · simp [check_max_equity_etf_combined, execSql, sqlSumWeight, h, ht]
  · simp [check_min_cash_exposure, execSql, sqlSumWeight, h, round4_zero]
  · simp [check_min_cash_exposure, execSql, sqlSumWeight, h, ht]
  · simp [check_min_cash_exposure, execSql, sqlSumWeight, h]

def c6ps : List Position :=
  [⟨"B1", "Bond One", "1", "Bond", "DE", "Financials", 100, "Clear"⟩]

/-- Witness for C6: a fund holding only a bond reports equity and commodity
metrics 0 and passes R001 at threshold 60 and R009 at threshold 15, while
R006 fails at its default threshold 2 (and would pass at threshold 0). -/
theorem claim_C6_witness :
    (check_max_equity_exposure ⟨c6ps, none⟩ "1" "2024-01-31" 60).metric_value =
      some 0 ∧
    (check_max_equity_exposure ⟨c6ps, none⟩ "1" "2024-01-31" 60).passed = true ∧
    (check_max_commodity_exposure ⟨c6ps, none⟩ "1" "2024-01-31" 15).metric_value =
      some 0 ∧
    (check_max_commodity_exposure ⟨c6ps, none⟩ "1" "2024-01-31" 15).passed = true ∧
    (check_min_cash_exposure ⟨c6ps, none⟩ "1" "2024-01-31" 0).metric_value =
      some 0 ∧
    (check_min_cash_exposure ⟨c6ps, none⟩ "1" "2024-01-31" 0).passed = true ∧
    (check_min_cash_exposure ⟨c6ps, none⟩ "1" "2024-01-31" 2).passed = false := by
  have h60 := claim_C6_zero_matching c6ps "1" "2024-01-31" 60
  have h15 := claim_C6_zero_matching c6ps "1" "2024-01-31" 15
  have h0 := claim_C6_zero_matching c6ps "1" "2024-01-31" 0
  have heq := h60.1 (by decide)
  have hco := h15.2.2.2.1 (by decide)
  have hca := h0.2.2.2.2.2 (by decide)
  exact ⟨heq.1, heq.2 (by decide), hco.1, hco.2 (by decide),
    hca.1, hca.2.1 (by decide), hca.2.2⟩

theorem country_concentration_spec (ps : List Position) (f a : String) (t : Rat) :
    ((check_max_single_country_concentration ⟨ps, none⟩ f a t).passed = true ↔
      ∀ g ∈ groupSums (fun p => p.country) (positionsOf f ps), g.2 ≤ t) ∧
    (∀ k v,
      (Breach.mk k ("Country: " ++ k) v ∈
        (check_max_single_country_concentration ⟨ps, none⟩ f a t).breaches) ↔
      ((k, v) ∈ groupSums (fun p => p.country) (positionsOf f ps) ∧ t < v)) := by
  cases hdf : sqlGroupSumDesc f (fun p => p.country) ps with
  | nil =>
      have hg : groupSums (fun p => p.country) (positionsOf f ps) = [] := by
        unfold sqlGroupSumDesc at hdf
        exact sortDesc_eq_nil_iff.mp hdf
      constructor
      · simp [check_max_single_country_concentration, execSql, hdf, _pass, hg]
      · intro k v
        simp [check_max_single_country_concentration, execSql, hdf, _pass, hg]
  | cons g0 rest =>
      have hdf2 : sortDesc (fun g : String × Rat => g.2)
          (groupSums (fun p => p.country) (positionsOf f ps)) = g0 :: rest := by
        unfold sqlGroupSumDesc at hdf
        exact hdf
      have hmax : ∀ g ∈ groupSums (fun p => p.country) (positionsOf f ps),
          g.2 ≤ g0.2 := sortDesc_head_max hdf2
      have hg0mem : g0 ∈ groupSums (fun p => p.country) (positionsOf f ps) := by
        have : g0 ∈ sortDesc (fun g : String × Rat => g.2)
            (groupSums (fun p => p.country) (positionsOf f ps)) := by
          rw [hdf2]
          exact List.mem_cons_self _ _
        exact mem_sortDesc.mp this
      have hmem_iff : ∀ g : String × Rat, g ∈ g0 :: rest ↔
          g ∈ groupSums (fun p => p.country) (positionsOf f ps) := by
        intro g
        rw [← hdf2]
        exact mem_sortDesc
      have hpass_eq : (check_max_single_country_concentration ⟨ps, none⟩ f a t).passed =
          decide (g0.2 ≤ t) := by
        simp [check_max_single_country_concentration, execSql, hdf]
      have hbr_eq : (check_max_single_country_concentration ⟨ps, none⟩ f a t).breaches =
          if decide (g0.2 ≤ t) = true then []
          else ((g0 :: rest).filter (fun g => decide (t < g.2))).map
            (fun g => Breach.mk g.1 ("Country: " ++ g.1) g.2) := by
        simp [check_max_single_country_concentration, execSql, hdf]
      constructor
      · rw [hpass_eq]
        constructor
        · intro hp g hgmem
          exact (hmax g hgmem).trans (by simpa using hp)
        · intro hall
          simpa using hall g0 hg0mem
      · intro k v
        rw [hbr_eq]
        by_cases hp : g0.2 ≤ t
        · simp only [hp, decide_eq_true_eq, if_pos, List.not_mem_nil, false_iff]
          rintro ⟨hkv, hlt⟩
          exact absurd hlt (not_lt.mpr ((hmax (k, v) hkv).trans hp))
        · have hcond : (decide (g0.2 ≤ t) = true) = False := by
            simp [hp]
          rw [if_neg (by simp [hp])]
          simp only [List.mem_map, List.mem_filter]
          constructor
          · rintro ⟨⟨k2, v2⟩, ⟨hgm, hlt⟩, heq⟩
            have hk : k2 = k ∧ ("Country: " ++ k2) = ("Country: " ++ k) ∧ v2 = v := by
              simpa [Breach.mk.injEq] using heq
            obtain ⟨rfl, -, rfl⟩ := hk
            exact ⟨(hmem_iff (k2, v2)).mp hgm, by simpa using hlt⟩
          · rintro ⟨hkv, hlt⟩
            exact ⟨(k, v), ⟨(hmem_iff (k, v)).mpr hkv, by simpa using hlt⟩, rfl⟩

theorem sector_concentration_spec (ps : List Position) (f a : String) (t : Rat) :
    ((check_max_single_sector_concentration ⟨ps, none⟩ f a t).passed = true ↔
      ∀ g ∈ groupSums (fun p => p.sector) (positionsOf f ps), g.2 ≤ t) ∧
    (∀ k v,
      (Breach.mk k ("Sector: " ++ k) v ∈
        (check_max_single_sector_concentration ⟨ps, none⟩ f a t).breaches) ↔
      ((k, v) ∈ groupSums (fun p => p.sector) (positionsOf f ps) ∧ t < v)) := by
  cases hdf : sqlGroupSumDesc f (fun p => p.sector) ps with
  | nil =>
      have hg : groupSums (fun p => p.sector) (positionsOf f ps) = [] := by
        unfold sqlGroupSumDesc at hdf
        exact sortDesc_eq_nil_iff.mp hdf
      constructor
      · simp [check_max_single_sector_concentration, execSql, hdf, _pass, hg]
      · intro k v
        simp [check_max_single_sector_concentration, execSql, hdf, _pass, hg]
  | cons g0 rest =>
      have hdf2 : sortDesc (fun g : String × Rat => g.2)
          (groupSums (fun p => p.sector) (positionsOf f ps)) = g0 :: rest := by
        unfold sqlGroupSumDesc at hdf
        exact hdf
      have hmax : ∀ g ∈ groupSums (fun p => p.sector) (positionsOf f ps),
          g.2 ≤ g0.2 := sortDesc_head_max hdf2
      have hg0mem : g0 ∈ groupSums (fun p => p.sector) (positionsOf f ps) := by
        have : g0 ∈ sortDesc (fun g : String × Rat => g.2)
            (groupSums (fun p => p.sector) (positionsOf f ps)) := by
          rw [hdf2]
          exact List.mem_cons_self _ _
        exact mem_sortDesc.mp this
      have hmem_iff : ∀ g : String × Rat, g ∈ g0 :: rest ↔
          g ∈ groupSums (fun p => p.sector) (positionsOf f ps) := by
        intro g
        rw [← hdf2]
        exact mem_sortDesc
      have hpass_eq : (check_max_single_sector_concentration ⟨ps, none⟩ f a t).passed =
          decide (g0.2 ≤ t) := by
        simp [check_max_single_sector_concentration, execSql, hdf]
      have hbr_eq : (check_max_single_sector_concentration ⟨ps, none⟩ f a t).breaches =
          if decide (g0.2 ≤ t) = true then []
          else ((g0 :: rest).filter (fun g => decide (t < g.2))).map
            (fun g => Breach.mk g.1 ("Sector: " ++ g.1) g.2) := by
        simp [check_max_single_sector_concentration, execSql, hdf]
      constructor
      · rw [hpass_eq]
        constructor
        · intro hp g hgmem
          exact (hmax g hgmem).trans (by simpa using hp)
        · intro hall
          simpa using hall g0 hg0mem
      · intro k v
        rw [hbr_eq]
        by_cases hp : g0.2 ≤ t
        · simp only [hp, decide_eq_true_eq, if_pos, List.not_mem_nil, false_iff]
          rintro ⟨hkv, hlt⟩
          exact absurd hlt (not_lt.mpr ((hmax (k, v) hkv).trans hp))
        · rw [if_neg (by simp [hp])]
          simp only [List.mem_map, List.mem_filter]
          constructor
          · rintro ⟨⟨k2, v2⟩, ⟨hgm, hlt⟩, heq⟩
            have hk : k2 = k ∧ ("Sector: " ++ k2) = ("Sector: " ++ k) ∧ v2 = v := by
              simpa [Breach.mk.injEq] using heq
            obtain ⟨rfl, -, rfl⟩ := hk
            exact ⟨(hmem_iff (k2, v2)).mp hgm, by simpa using hlt⟩
          · rintro ⟨hkv, hlt⟩
            exact ⟨(k, v), ⟨(hmem_iff (k, v)).mpr hkv, by simpa using hlt⟩, rfl⟩

/-- C7: each concentration-by-group evaluator (country and sector) passes
iff every per-group weight sum is within the threshold — equivalently, iff
the maximum group sum is — and on failure its breach list holds exactly the
groups whose sum strictly exceeds the threshold, not only the maximal one. -/
theorem claim_C7_concentration_groups :
    ∀ (ps : List Position) (fund_id as_of_date : String) (t : Rat),
      ((check_max_single_country_concentration ⟨ps, none⟩ fund_id as_of_date t).passed =
          true ↔
        ∀ g ∈ groupSums (fun p => p.country) (positionsOf fund_id ps), g.2 ≤ t) ∧
      (∀ k v,
        (Breach.mk k ("Country: " ++ k) v ∈
          (check_max_single_country_concentration ⟨ps, none⟩ fund_id as_of_date
            t).breaches) ↔
        ((k, v) ∈ groupSums (fun p => p.country) (positionsOf fund_id ps) ∧ t < v)) ∧
      ((check_max_single_sector_concentration ⟨ps, none⟩ fund_id as_of_date t).passed =
          true ↔
        ∀ g ∈ groupSums (fun p => p.sector) (positionsOf fund_id ps), g.2 ≤ t) ∧
      (∀ k v,
        (Breach.mk k ("Sector: " ++ k) v ∈
          (check_max_single_sector_concentration ⟨ps, none⟩ fund_id as_of_date
            t).breaches) ↔
        ((k, v) ∈ groupSums (fun p => p.sector) (positionsOf fund_id ps) ∧ t < v)) :=
  fun ps f a t =>
    ⟨(country_concentration_spec ps f a t).1, (country_concentration_spec ps f a t).2,
     (sector_concentration_spec ps f a t).1, (sector_concentration_spec ps f a t).2⟩

def c7ps : List Position :=
  [⟨"US1", "US One", "1", "Equity", "US", "Tech", 40, "Clear"⟩,
   ⟨"US2", "US Two", "1", "Equity", "US", "Tech", 35, "Clear"⟩,
   ⟨"DE1", "DE One", "1", "Bond", "DE", "Financials", 25, "Clear"⟩]

/-- Witness for C7: with country sums US = 75 and DE = 25 against threshold
30, the rule fails, the US group is listed as a breach, and the DE group
(below the threshold) is not. -/
theorem claim_C7_witness :
    (check_max_single_country_concentration ⟨c7ps, none⟩ "1" "2024-01-31" 30).passed =
      false ∧
    (Breach.mk "US" ("Country: " ++ "US") 75 ∈
      (check_max_single_country_concentration ⟨c7ps, none⟩ "1" "2024-01-31"
        30).breaches) ∧
    ¬ (Breach.mk "DE" ("Country: " ++ "DE") 25 ∈
      (check_max_single_country_concentration ⟨c7ps, none⟩ "1" "2024-01-31"
        30).breaches) := by
  have h := claim_C7_concentration_groups c7ps "1" "2024-01-31" 30
  have hUS : (("US", (75 : Rat)) ∈
      groupSums (fun p => p.country) (positionsOf "1" c7ps)) := by
    simp [groupSums, keysInOrder, positionsOf, sumWeights, c7ps, List.filter]
    norm_num
  refine ⟨?_, (h.2.1 "US" 75).mpr ⟨hUS, by norm_num⟩, fun hmem => ?_⟩
  · cases hpa : (check_max_single_country_concentration ⟨c7ps, none⟩ "1"
        "2024-01-31" 30).passed with
    | false => rfl
    | true =>
        have hall := h.1.mp hpa
        have := hall ("US", 75) hUS
        norm_num at this
  · have := ((h.2.1 "DE" 25).mp hmem).2
    norm_num at this

def c8Rule : ManifestRule :=
  ⟨"R006", "min 2% of portfolio in Cash", ThresholdOverride.blank, "TRUE ",
    "Liquidity", ""⟩

/-- Counterexample for C8 as stated: the enabled flag "TRUE " (trailing
space) is, case-insensitively, not the string "TRUE", yet the rule is not
skipped — the orchestrator strips whitespace first, so the evaluator runs
and the row FAILs (cash 0 below the default threshold 2). -/
theorem claim_C8_counterexample :
    upperStr c8Rule.enabled ≠ "TRUE" ∧
    (processRule ⟨[], none⟩ "1" "2024-01-31" c8Rule).1.status = "FAIL" := by
  decide

/-- C8 amended: for every manifest rule whose enabled flag is, after
stripping surrounding whitespace, case-insensitively not TRUE, the batch
run records a SKIPPED summary row with breach_count 0 and no breach rows;
the evaluator is never invoked — the outcome is the same for every store. -/
theorem claim_C8_amended :
    ∀ (s : Store) (fund_id as_of_date : String) (rule : ManifestRule),
      upperStr (trimStr rule.enabled) ≠ "TRUE" →
      processRule s fund_id as_of_date rule =
        (skippedRowFor (trimStr rule.rule_id) rule, []) ∧
      (skippedRowFor (trimStr rule.rule_id) rule).status = "SKIPPED" ∧
      (skippedRowFor (trimStr rule.rule_id) rule).breach_count = 0 := by
  intro s f a rule hen
  refine ⟨?_, rfl, rfl⟩
  simp [processRule, hen]

def c8RuleB : ManifestRule :=
  ⟨"R001", "max 60% of portfolio in Equity", ThresholdOverride.blank, "false",
    "Asset Class", ""⟩

/-- Witness for C8 amended: a rule disabled with "false". -/
theorem claim_C8_witness :
    processRule ⟨[], none⟩ "1" "2024-01-31" c8RuleB =
      (skippedRowFor (trimStr c8RuleB.rule_id) c8RuleB, []) ∧
    (skippedRowFor (trimStr c8RuleB.rule_id) c8RuleB).status = "SKIPPED" ∧
    (skippedRowFor (trimStr c8RuleB.rule_id) c8RuleB).breach_count = 0 :=
  claim_C8_amended ⟨[], none⟩ "1" "2024-01-31" c8RuleB (by decide)

/-- C9: `run_rules` produces exactly one summary row per manifest rule, in
manifest order; the breach output is the concatenation of each rule's own
breach rows, every one tagged with the (stripped) rule_id of the rule that
produced it; and the number of breach rows equals the sum of breach_count
over all summary rows. -/
theorem claim_C9_aggregation :
    ∀ (s : Store) (rules : List ManifestRule) (fund_id as_of_date : String),
      (run_rules s rules fund_id as_of_date).1 =
        rules.map (fun r => (processRule s fund_id as_of_date r).1) ∧
      (run_rules s rules fund_id as_of_date).1.length = rules.length ∧
      (run_rules s rules fund_id as_of_date).2 =
        (rules.map (fun r => (processRule s fund_id as_of_date r).2)).flatten ∧
      (∀ r : ManifestRule,
        ((processRule s fund_id as_of_date r).2).map (fun br => br.rule_id) =
          List.replicate ((processRule s fund_id as_of_date r).2).length
            (trimStr r.rule_id)) ∧
      (run_rules s rules fund_id as_of_date).2.length =
        (((run_rules s rules fund_id as_of_date).1).map
          (fun row => row.breach_count)).sum := by
  intro s rules f a
  refine ⟨?_, ?_, ?_, fun r => (processRule_props s f a r).2.2.2, ?_⟩
  · rw [run_rules_eq]
  · rw [run_rules_eq]
    simp
  · rw [run_rules_eq]
  · rw [run_rules_eq]
    simp only [List.length_flatten, List.map_map]
    congr 1
    apply List.map_congr_left
    intro r _
    exact (processRule_props s f a r).2.2.1

theorem restricted_fields_threshold_independent (s : Store) (f a : String)
    (t1 t2 : Rat) :
    (check_no_restricted_positions s f a t1).passed =
      (check_no_restricted_positions s f a t2).passed ∧
    (check_no_restricted_positions s f a t1).metric_value =
      (check_no_restricted_positions s f a t2).metric_value ∧
    (check_no_restricted_positions s f a t1).breaches =
      (check_no_restricted_positions s f a t2).breaches ∧
    (check_no_restricted_positions s f a t1).message =
      (check_no_restricted_positions s f a t2).message ∧
    (check_no_restricted_positions s f a t1).error =
      (check_no_restricted_positions s f a t2).error := by
  rcases s with ⟨ps, err⟩
  cases err with
  | some e =>
      refine ⟨?_, ?_, ?_, ?_, ?_⟩ <;>
        simp [check_no_restricted_positions, execSql, _error]
  | none =>
      refine ⟨?_, ?_, ?_, ?_, ?_⟩ <;>
      · simp only [check_no_restricted_positions, execSql]
        split <;> rfl

/-- C10: `check_no_restricted_positions` depends on its threshold argument
only through the reported threshold field — passed flag, metric, breaches,
message and error flag agree for any two thresholds over the same store —
so a threshold_override on rule R002 never changes its pass/fail outcome. -/
theorem claim_C10_threshold_independent :
    ∀ (s : Store) (fund_id as_of_date : String) (t1 t2 : Rat),
      ((check_no_restricted_positions s fund_id as_of_date t1).passed =
        (check_no_restricted_positions s fund_id as_of_date t2).passed ∧
      (check_no_restricted_positions s fund_id as_of_date t1).metric_value =
        (check_no_restricted_positions s fund_id as_of_date t2).metric_value ∧
      (check_no_restricted_positions s fund_id as_of_date t1).breaches =
        (check_no_restricted_positions s fund_id as_of_date t2).breaches ∧
      (check_no_restricted_positions s fund_id as_of_date t1).message =
        (check_no_restricted_positions s fund_id as_of_date t2).message ∧
      (check_no_restricted_positions s fund_id as_of_date t1).error =
        (check_no_restricted_positions s fund_id as_of_date t2).error) ∧
      (∀ (rule : ManifestRule) (o1 o2 : ThresholdOverride),
        trimStr rule.rule_id = "R002" →
        upperStr (trimStr rule.enabled) = "TRUE" →
        (processRule s fund_id as_of_date
          { rule with threshold_override := o1 }).1.status =
        (processRule s fund_id as_of_date
          { rule with threshold_override := o2 }).1.status) := by
  intro s f a t1 t2
  refine ⟨restricted_fields_threshold_independent s f a t1 t2, ?_⟩
  intro rule o1 o2 hid hen
  have h := restricted_fields_threshold_independent s f a
    ((resolveThreshold o1).getD 0) ((resolveThreshold o2).getD 0)
  simp [processRule, hid, hen, RULE_REGISTRY, List.lookup, summaryRowFor,
    statusOf, h.1, h.2.2.2.2]

def c10Rule : ManifestRule :=
  ⟨"R002", "no positions with Restricted compliance status",
    ThresholdOverride.blank, "TRUE", "Regulatory", ""⟩

/-- Witness for C10: on an empty store, thresholds 5 and 0 yield the same
passed flag, and a numeric override versus a junk override on rule R002
yield the same summary status. -/
theorem claim_C10_witness :
    ((check_no_restricted_positions ⟨[], none⟩ "1" "2024-01-31" 5).passed =
      (check_no_restricted_positions ⟨[], none⟩ "1" "2024-01-31" 0).passed) ∧
    (processRule ⟨[], none⟩ "1" "2024-01-31"
        { c10Rule with threshold_override := ThresholdOverride.numeric 5 }).1.status =
      (processRule ⟨[], none⟩ "1" "2024-01-31"
        { c10Rule with threshold_override := ThresholdOverride.junk "x" }).1.status := by
  have h := claim_C10_threshold_independent ⟨[], none⟩ "1" "2024-01-31" 5 0
  exact ⟨h.1.1, h.2 c10Rule (ThresholdOverride.numeric 5)
    (ThresholdOverride.junk "x") (by decide) (by decide)⟩
